import Mathlib

/-!
Shallow embedding of `nemo/lightning/io/api.py`: checkpoint interchange glue
(`load_context`, `import_ckpt`, `load_connector_from_trainer_ckpt`,
`_verify_peft_export`, `export_ckpt`).

Collaborators that live outside the excerpt (the object-graph loader `load` from the
`mixin` module, the converter registry, the ModelOpt route `export_hf_checkpoint`, and
the filesystem) are modelled as an explicit environment of abstract functions. Each
function of the module is embedded as a Lean function that returns, next to its
`Except`-style result, the list of collaborator-invocation events it performed, so that
claims about call order, call counts and forwarded arguments are statable.
-/

namespace NemoApi

/-- A filesystem path, as its list of segments (`pathlib.Path.parts`). `p / seg` is
`p ++ [seg]`, `p.parent` is `p.dropLast`. -/
abbrev FsPath := List String

/-- Opaque keyword arguments forwarded unchanged (`**kwargs`). -/
abbrev Kwargs := List (String × String)

/-- Python exceptions relevant to this module: `FileNotFoundError`, `ValueError` with its
message, and any other exception (opaque). -/
inductive PErr where
  | fileNotFound
  | valueError (msg : String)
  | other (code : Nat)
  deriving DecidableEq

/-- A `pl.LightningModule` instance: either it is a `ConnectorMixin` (carrying an opaque
capability identifier used by the registry collaborator) or it is not. -/
inductive ModelV where
  | notCapable
  | capable (cap : Nat)
  deriving DecidableEq

/-- An importer instance (`ModelConnector`), identified opaquely. -/
abbrev Importer := Nat

/-- An exporter instance (`ModelConnector`), identified opaquely. -/
abbrev Exporter := Nat

/-- Collaborator-invocation events, recording the arguments each call forwarded. -/
inductive Event where
  | loadCall (path : FsPath) (subpath : Option String) (build : Bool)
  | resolveImporter (cap : Nat) (source : String)
  | invokeImporter (imp : Importer) (overwrite : Bool) (output_path : Option FsPath)
      (kwargs : Kwargs)
  | importHook (imp : Importer) (model : ModelV)
  | resolveExporter (cap : Nat) (target : String) (path : FsPath)
  | invokeExporter (ex : Exporter) (overwrite : Bool) (output_path : FsPath)
      (kwargs : Kwargs)
  | modeloptCall (path : FsPath) (output_path : FsPath) (kwargs : Kwargs)
  deriving DecidableEq

/-- Behaviour of the external collaborators. Each field may return an error, which the
module propagates uncaught. `onImportCkpt` returns a value that the module never
consumes. `fileExists` models `pathlib.Path.exists`. -/
structure Env where
  importerOf : Nat → String → Except PErr Importer
  runImporter : Importer → Bool → Option FsPath → Kwargs → Except PErr FsPath
  onImportCkpt : Importer → ModelV → Except PErr Nat
  loadModel : FsPath → Option String → Bool → Except PErr ModelV
  exporterOf : Nat → String → FsPath → Except PErr Exporter
  runExporter : Exporter → Bool → FsPath → Kwargs → Except PErr FsPath
  exportHfCheckpoint : FsPath → FsPath → Kwargs → Except PErr (Option FsPath)
  fileExists : FsPath → Bool

/-- The alternate layout `load_context` retries on `FileNotFoundError`: the parent when
the last segment is `context`, else the path with `context` appended. -/
def normContextPath (path : FsPath) : FsPath :=
  if path.getLast? = some "context" then path.dropLast else path ++ ["context"]

/-- Embedding of `load_context(path, subpath, build)`: call the collaborator `load`; on
`FileNotFoundError` retry once at `normContextPath path`; any other outcome (success or
other error) is returned as is, and the second call's outcome is returned verbatim. -/
def load_context {α : Type} (load : FsPath → Option String → Bool → Except PErr α)
    (path : FsPath) (subpath : Option String) (build : Bool) :
    Except PErr α × List Event :=
  match load path subpath build with
  | .ok v => (.ok v, [Event.loadCall path subpath build])
  | .error .fileNotFound =>
      (load (normContextPath path) subpath build,
       [Event.loadCall path subpath build,
        Event.loadCall (normContextPath path) subpath build])
  | .error e => (.error e, [Event.loadCall path subpath build])

/-- Modelled from the spec: the collaborator `load` (from the `mixin` module, not part of
the excerpt) reads the serialization file `io.json` under the given directory and raises
a not-found error when that file is missing. The filesystem is the list of files
present; the loaded value is irrelevant to the layout claims, hence `Unit`. -/
def fsLoad (fs : List FsPath) (path : FsPath) (_subpath : Option String) (_build : Bool) :
    Except PErr Unit :=
  if path ++ ["io.json"] ∈ fs then .ok () else .error .fileNotFound

/-- The message of the `ValueError` raised when the model lacks `ConnectorMixin`. -/
def capabilityErrorMessage : String := "Model must be an instance of ConnectorMixin"

/-- Embedding of `import_ckpt(model, source, output_path, overwrite, **kwargs)`. -/
def import_ckpt (env : Env) (model : ModelV) (source : String)
    (output_path : Option FsPath) (overwrite : Bool) (kwargs : Kwargs) :
    Except PErr FsPath × List Event :=
  match model with
  | .notCapable => (.error (.valueError capabilityErrorMessage), [])
  | .capable cap =>
    match env.importerOf cap source with
    | .error e => (.error e, [Event.resolveImporter cap source])
    | .ok importer =>
      match env.runImporter importer overwrite output_path kwargs with
      | .error e =>
          (.error e,
           [Event.resolveImporter cap source,
            Event.invokeImporter importer overwrite output_path kwargs])
      | .ok ckpt_path =>
        match env.onImportCkpt importer model with
        | .error e =>
            (.error e,
             [Event.resolveImporter cap source,
              Event.invokeImporter importer overwrite output_path kwargs,
              Event.importHook importer model])
        | .ok _ =>
            (.ok ckpt_path,
             [Event.resolveImporter cap source,
              Event.invokeImporter importer overwrite output_path kwargs,
              Event.importHook importer model])

/-- Embedding of `load_connector_from_trainer_ckpt(path, target)`: load the model
sub-object (`subpath="model"`, `build=True` by default), check the capability, resolve
the exporter for `target` scoped to `path`; never invoke it. -/
def load_connector_from_trainer_ckpt (env : Env) (path : FsPath) (target : String) :
    Except PErr Exporter × List Event :=
  match load_context env.loadModel path (some "model") true with
  | (.error e, tr) => (.error e, tr)
  | (.ok model, tr) =>
    match model with
    | .notCapable => (.error (.valueError capabilityErrorMessage), tr)
    | .capable cap =>
      match env.exporterOf cap target path with
      | .error e => (.error e, tr ++ [Event.resolveExporter cap target path])
      | .ok ex => (.ok ex, tr ++ [Event.resolveExporter cap target path])

/-- The message of the `ValueError` raised by `_verify_peft_export` (abridged, keeping
the remediation guidance of the source). -/
def peftErrorMessage (path : FsPath) : String :=
  "Your checkpoint " ++ String.intercalate "/" path ++
    " contains PEFT weights, but your specified export target hf should be used for " ++
    "full model checkpoints. If you want to convert NeMo 2 PEFT to Hugging Face PEFT " ++
    "checkpoint, set target to hf-peft. If you want to merge LoRA weights back to the " ++
    "base model and export the merged full model, run llm.peft.merge_lora first " ++
    "before exporting."

/-- Embedding of `_verify_peft_export(path, target)`: raise `ValueError` exactly when
`target == "hf"` and `path/weights/adapter_metadata.json` exists. -/
def verify_peft_export (env : Env) (path : FsPath) (target : String) :
    Except PErr Unit :=
  if target = "hf" ∧ env.fileExists (path ++ ["weights", "adapter_metadata.json"]) = true
  then .error (.valueError (peftErrorMessage path))
  else .ok ()

/-- The tail of `export_ckpt` (its source lines after the ModelOpt route): guard check,
exporter resolution via the `load_connector` argument, exporter invocation. -/
def exportGenericRoute (env : Env) (path : FsPath) (target : String)
    (effective_output_path : FsPath) (overwrite : Bool)
    (load_connector : FsPath → String → Except PErr Exporter × List Event)
    (kwargs : Kwargs) : Except PErr FsPath × List Event :=
  match verify_peft_export env path target with
  | .error e => (.error e, [])
  | .ok _ =>
    match load_connector path target with
    | (.error e, tr) => (.error e, tr)
    | (.ok ex, tr) =>
      match env.runExporter ex overwrite effective_output_path kwargs with
      | .error e =>
          (.error e,
           tr ++ [Event.invokeExporter ex overwrite effective_output_path kwargs])
      | .ok p =>
          (.ok p,
           tr ++ [Event.invokeExporter ex overwrite effective_output_path kwargs])

/-- Embedding of `export_ckpt(path, target, output_path, overwrite, load_connector,
modelopt_export_kwargs, **kwargs)`: compute the effective output path; when
`target == "hf"` first try `export_hf_checkpoint` and return its result when not
`None`; otherwise continue with guard check, exporter resolution and invocation. -/
def export_ckpt (env : Env) (path : FsPath) (target : String)
    (output_path : Option FsPath) (overwrite : Bool)
    (load_connector : FsPath → String → Except PErr Exporter × List Event)
    (modelopt_export_kwargs : Option Kwargs) (kwargs : Kwargs) :
    Except PErr FsPath × List Event :=
  let effOut := output_path.getD (path ++ [target])
  if target = "hf" then
    let mek := modelopt_export_kwargs.getD []
    match env.exportHfCheckpoint path effOut mek with
    | .error e => (.error e, [Event.modeloptCall path effOut mek])
    | .ok (some output) => (.ok output, [Event.modeloptCall path effOut mek])
    | .ok none =>
      let rest := exportGenericRoute env path target effOut overwrite load_connector kwargs
      (rest.1, Event.modeloptCall path effOut mek :: rest.2)
  else
    exportGenericRoute env path target effOut overwrite load_connector kwargs

/-- True on `loadCall` events only. -/
def isLoadCallEv : Event → Bool
  | .loadCall .. => true
  | _ => false

/-- True on `resolveImporter` events only. -/
def isResolveImporterEv : Event → Bool
  | .resolveImporter .. => true
  | _ => false

/-- True on `invokeImporter` events only. -/
def isInvokeImporterEv : Event → Bool
  | .invokeImporter .. => true
  | _ => false

/-- True on `resolveExporter` events only. -/
def isResolveExporterEv : Event → Bool
  | .resolveExporter .. => true
  | _ => false

/-- True on `invokeExporter` events only. -/
def isInvokeExporterEv : Event → Bool
  | .invokeExporter .. => true
  | _ => false

/-- Number of events of a trace satisfying `q`. -/
def countEv (q : Event → Bool) (tr : List Event) : Nat :=
  (tr.filter q).length

/-- A concrete environment where every collaborator succeeds, the ModelOpt route
declines (`None`) and no adapter marker file exists. -/
def envPlain : Env where
  importerOf := fun _ _ => .ok 7
  runImporter := fun _ _ _ _ => .ok ["imported"]
  onImportCkpt := fun _ _ => .ok 0
  loadModel := fun _ _ _ => .ok (ModelV.capable 0)
  exporterOf := fun _ _ _ => .ok 3
  runExporter := fun _ _ _ _ => .ok ["res"]
  exportHfCheckpoint := fun _ _ _ => .ok none
  fileExists := fun _ => false

/-- A concrete environment where the adapter marker file exists and the ModelOpt route
returns the requested output path. -/
def envQuantPeft : Env where
  importerOf := fun _ _ => .ok 7
  runImporter := fun _ _ _ _ => .ok ["imported"]
  onImportCkpt := fun _ _ => .ok 0
  loadModel := fun _ _ _ => .ok (ModelV.capable 0)
  exporterOf := fun _ _ _ => .ok 3
  runExporter := fun _ _ _ _ => .ok ["generic"]
  exportHfCheckpoint := fun _ out _ => .ok (some out)
  fileExists := fun _ => true

/-- A concrete environment where the adapter marker file exists but the ModelOpt route
declines (`None`). -/
def envPeftNoQuant : Env where
  importerOf := fun _ _ => .ok 7
  runImporter := fun _ _ _ _ => .ok ["imported"]
  onImportCkpt := fun _ _ => .ok 0
  loadModel := fun _ _ _ => .ok (ModelV.capable 0)
  exporterOf := fun _ _ _ => .ok 3
  runExporter := fun _ _ _ _ => .ok ["generic"]
  exportHfCheckpoint := fun _ _ _ => .ok none
  fileExists := fun _ => true

/-- A concrete loader that fails with `FileNotFoundError` at `["p"]` and with an
unrelated error everywhere else. -/
def loadFnf : FsPath → Option String → Bool → Except PErr Unit :=
  fun q _ _ => if q = ["p"] then .error .fileNotFound else .error (.other 5)

/-- Claim C7: `import_ckpt` on a model that is not a `ConnectorMixin` fails immediately
with the configuration `ValueError`; no importer is resolved or invoked and the event
trace is empty (in particular no filesystem write happens). -/
theorem C7_import_ckpt_not_capable (env : Env) (source : String)
    (output_path : Option FsPath) (overwrite : Bool) (kwargs : Kwargs) :
    import_ckpt env ModelV.notCapable source output_path overwrite kwargs
      = (Except.error (PErr.valueError capabilityErrorMessage), []) := rfl

/-- Claim C5: on a converter-capable model, when resolution, importer invocation and the
post-import hook all succeed, `import_ckpt` resolves one importer, invokes it exactly
once with `overwrite`, `output_path` and the extra options, then invokes the hook on the
model, and returns exactly the importer's returned path — whatever value `hookRes` the
hook returned (it is not consumed). -/
theorem C5_import_ckpt_success (env : Env) (cap : Nat) (source : String)
    (output_path : Option FsPath) (overwrite : Bool) (kwargs : Kwargs)
    (imp : Importer) (p : FsPath) (hookRes : Nat)
    (hres : env.importerOf cap source = .ok imp)
    (hrun : env.runImporter imp overwrite output_path kwargs = .ok p)
    (hhook : env.onImportCkpt imp (ModelV.capable cap) = .ok hookRes) :
    import_ckpt env (ModelV.capable cap) source output_path overwrite kwargs
      = (Except.ok p,
         [Event.resolveImporter cap source,
          Event.invokeImporter imp overwrite output_path kwargs,
          Event.importHook imp (ModelV.capable cap)]) := by
  simp only [import_ckpt, hres, hrun, hhook]

/-- Claim C5, witness at a concrete environment. -/
theorem C5_import_ckpt_success_witness :
    import_ckpt envPlain (ModelV.capable 0) "hf" none false []
      = (Except.ok ["imported"],
         [Event.resolveImporter 0 "hf",
          Event.invokeImporter 7 false none [],
          Event.importHook 7 (ModelV.capable 0)]) :=
  C5_import_ckpt_success envPlain 0 "hf" none false [] 7 ["imported"] 0 rfl rfl rfl

/-- Claim C3, counterexample: the claim also asserts that for a context stored at
`X/context/io.json` loading from `X` succeeds; it fails when `X` itself ends in a
`context` segment. Take `X = a/context`, so the context file is
`a/context/context/io.json`: the first attempt at `X` misses, and since `X`'s last
segment is `context` the single retry goes to the parent `a` (not `X/context`), which
also misses, so `load_context` fails with a not-found error. -/
theorem C3_counterexample :
    (["a", "context"] ++ ["context", "io.json"] = ["a", "context", "context", "io.json"])
    ∧ (load_context (fsLoad [["a", "context", "context", "io.json"]])
        ["a", "context"] none true).1 = Except.error PErr.fileNotFound := by
  constructor
  · rfl
  · rfl

/-- Claim C3 (amended: the layout symmetry for `X` is restricted to `X` whose last
segment is not `context`): when the first load attempt at `p` fails with a not-found
error, `load_context` retries exactly once, at `p`'s parent when `p`'s last segment is
`context` and at `p ++ [context]` otherwise, returning the second outcome verbatim; and
for a context stored at `X/context/io.json` with `X` not ending in a `context` segment,
`load_context` succeeds both from `X` and from `X/context`. -/
theorem C3_load_context_retry (α : Type)
    (load : FsPath → Option String → Bool → Except PErr α)
    (p : FsPath) (subpath : Option String) (build : Bool)
    (hp : p ≠ [])
    (hfnf : load p subpath build = Except.error PErr.fileNotFound)
    (X : FsPath) (hX : X.getLast? ≠ some "context") :
    load_context load p subpath build
      = (load (normContextPath p) subpath build,
         [Event.loadCall p subpath build,
          Event.loadCall (normContextPath p) subpath build])
    ∧ (load_context (fsLoad [X ++ ["context", "io.json"]]) X subpath build).1
        = Except.ok ()
    ∧ (load_context (fsLoad [X ++ ["context", "io.json"]]) (X ++ ["context"]) subpath
        build).1 = Except.ok () := by
  refine ⟨?_, ?_, ?_⟩
  · simp only [load_context, hfnf]
  · have hmiss : fsLoad [X ++ ["context", "io.json"]] X subpath build
        = Except.error PErr.fileNotFound := by
      simp only [fsLoad, List.mem_singleton]
      rw [if_neg]
      intro h
      have h2 := List.append_cancel_left h
      simp at h2
    have hnorm : normContextPath X = X ++ ["context"] := by
      simp only [normContextPath]
      rw [if_neg hX]
    have hhit : fsLoad [X ++ ["context", "io.json"]] (X ++ ["context"]) subpath build
        = Except.ok () := by
      simp [fsLoad]
    simp only [load_context, hmiss, hnorm, hhit]
  · have hhit : fsLoad [X ++ ["context", "io.json"]] (X ++ ["context"]) subpath build
        = Except.ok () := by
      simp [fsLoad]
    simp only [load_context, hhit]

/-- Claim C3, witness at concrete inputs. -/
theorem C3_load_context_retry_witness :
    load_context loadFnf ["p"] none true
      = (loadFnf (normContextPath ["p"]) none true,
         [Event.loadCall ["p"] none true,
          Event.loadCall (normContextPath ["p"]) none true])
    ∧ (load_context (fsLoad [["x"] ++ ["context", "io.json"]]) ["x"] none true).1
        = Except.ok ()
    ∧ (load_context (fsLoad [["x"] ++ ["context", "io.json"]]) (["x"] ++ ["context"])
        none true).1 = Except.ok () :=
  C3_load_context_retry Unit loadFnf ["p"] none true (by decide) rfl ["x"] (by decide)

/-- Claim C4: when no `io.json` exists under either layout, `load_context` over the
spec-modelled loader fails with the not-found error after exactly two load attempts (no
further retry); and in general the outcome of the single retry is propagated verbatim,
whatever error `e` the collaborator raises there. -/
theorem C4_load_context_both_missing (α : Type)
    (load : FsPath → Option String → Bool → Except PErr α)
    (fs : List FsPath) (p : FsPath) (subpath : Option String) (build : Bool) (e : PErr)
    (h1 : p ++ ["io.json"] ∉ fs)
    (h2 : normContextPath p ++ ["io.json"] ∉ fs)
    (hload : load p subpath build = Except.error PErr.fileNotFound)
    (hload2 : load (normContextPath p) subpath build = Except.error e) :
    load_context (fsLoad fs) p subpath build
      = (Except.error PErr.fileNotFound,
         [Event.loadCall p subpath build,
          Event.loadCall (normContextPath p) subpath build])
    ∧ load_context load p subpath build
      = (Except.error e,
         [Event.loadCall p subpath build,
          Event.loadCall (normContextPath p) subpath build]) := by
  constructor
  · have hm1 : fsLoad fs p subpath build = Except.error PErr.fileNotFound := by
      simp only [fsLoad]
      rw [if_neg h1]
    have hm2 : fsLoad fs (normContextPath p) subpath build
        = Except.error PErr.fileNotFound := by
      simp only [fsLoad]
      rw [if_neg h2]
    simp only [load_context, hm1, hm2]
  · simp only [load_context, hload, hload2]

/-- Claim C4, witness at concrete inputs. -/
theorem C4_load_context_both_missing_witness :
    load_context (fsLoad []) ["p"] none true
      = (Except.error PErr.fileNotFound,
         [Event.loadCall ["p"] none true,
          Event.loadCall (normContextPath ["p"]) none true])
    ∧ load_context loadFnf ["p"] none true
      = (Except.error (PErr.other 5),
         [Event.loadCall ["p"] none true,
          Event.loadCall (normContextPath ["p"]) none true]) :=
  C4_load_context_both_missing Unit loadFnf [] ["p"] none true (PErr.other 5)
    (by decide) (by decide) rfl rfl

/-- Claim C8: `load_connector_from_trainer_ckpt` loads the model sub-object with
`subpath = "model"` and `build = true`; when that model is converter-capable it returns
the exporter resolved for `target` scoped to `path` without invoking it (the trace holds
the load call and the resolution only, no `invokeExporter` event); when the loaded model
is not capable it fails with the configuration `ValueError`. -/
theorem C8_load_connector_from_trainer_ckpt (env : Env) (path : FsPath) (target : String)
    (cap : Nat) (ex : Exporter)
    (hload : env.loadModel path (some "model") true = Except.ok (ModelV.capable cap))
    (hexp : env.exporterOf cap target path = Except.ok ex) :
    load_connector_from_trainer_ckpt env path target
      = (Except.ok ex,
         [Event.loadCall path (some "model") true, Event.resolveExporter cap target path])
    ∧ ∀ env2 : Env, env2.loadModel path (some "model") true = Except.ok ModelV.notCapable →
        (load_connector_from_trainer_ckpt env2 path target).1
          = Except.error (PErr.valueError capabilityErrorMessage) := by
  constructor
  · simp only [load_connector_from_trainer_ckpt, load_context, hload, hexp]
    rfl
  · intro env2 h2
    simp only [load_connector_from_trainer_ckpt, load_context, h2]

/-- Claim C8, witness at a concrete environment. -/
theorem C8_load_connector_from_trainer_ckpt_witness :
    load_connector_from_trainer_ckpt envPlain ["c"] "hf"
      = (Except.ok 3,
         [Event.loadCall ["c"] (some "model") true, Event.resolveExporter 0 "hf" ["c"]])
    ∧ ∀ env2 : Env,
        env2.loadModel ["c"] (some "model") true = Except.ok ModelV.notCapable →
        (load_connector_from_trainer_ckpt env2 ["c"] "hf").1
          = Except.error (PErr.valueError capabilityErrorMessage) :=
  C8_load_connector_from_trainer_ckpt envPlain ["c"] "hf" 0 3 rfl rfl

/-- Claim C1, counterexample: with the adapter marker file present but the specialized
ModelOpt route returning a path, `export_ckpt` with `target = "hf"` returns that path
successfully — no `ValueError` is raised, because the source calls
`export_hf_checkpoint` before `_verify_peft_export`. -/
theorem C1_counterexample :
    envQuantPeft.fileExists (["ckpt"] ++ ["weights", "adapter_metadata.json"]) = true
    ∧ export_ckpt envQuantPeft ["ckpt"] "hf" none false
        (fun _ _ => (Except.error PErr.fileNotFound, [])) none []
      = (Except.ok ["ckpt", "hf"], [Event.modeloptCall ["ckpt"] ["ckpt", "hf"] []]) := by
  constructor
  · rfl
  · rfl

/-- Claim C1 (amended: restricted to executions where the specialized quantization-aware
route declines, returning `None`): `export_ckpt` with `target = "hf"` on a checkpoint
containing `weights/adapter_metadata.json` fails with the descriptive `ValueError`
before any exporter is resolved — the result does not depend on the `load_connector`
argument at all, and the trace holds only the ModelOpt attempt, no `loadCall`,
`resolveExporter` or `invokeExporter` event. -/
theorem C1_peft_guard (env : Env) (path : FsPath) (output_path : Option FsPath)
    (overwrite : Bool) (lc : FsPath → String → Except PErr Exporter × List Event)
    (mek : Option Kwargs) (kwargs : Kwargs)
    (hmark : env.fileExists (path ++ ["weights", "adapter_metadata.json"]) = true)
    (hquant : env.exportHfCheckpoint path (output_path.getD (path ++ ["hf"]))
        (mek.getD []) = Except.ok none) :
    export_ckpt env path "hf" output_path overwrite lc mek kwargs
      = (Except.error (PErr.valueError (peftErrorMessage path)),
         [Event.modeloptCall path (output_path.getD (path ++ ["hf"])) (mek.getD [])]) := by
  have hguard : verify_peft_export env path "hf"
      = Except.error (PErr.valueError (peftErrorMessage path)) := by
    simp [verify_peft_export, hmark]
  simp [export_ckpt, hquant, exportGenericRoute, hguard]

/-- Claim C1 (amended), witness at a concrete environment. -/
theorem C1_peft_guard_witness :
    export_ckpt envPeftNoQuant ["ckpt"] "hf" none false
        (fun _ _ => (Except.error PErr.fileNotFound, [])) none []
      = (Except.error (PErr.valueError (peftErrorMessage ["ckpt"])),
         [Event.modeloptCall ["ckpt"] ["ckpt", "hf"] []]) :=
  C1_peft_guard envPeftNoQuant ["ckpt"] none false
    (fun _ _ => (Except.error PErr.fileNotFound, [])) none [] rfl rfl

/-- Claim C2: when the specialized ModelOpt route returns a path, `export_ckpt` with
`target = "hf"` returns exactly that path, with a trace holding only the ModelOpt
attempt: the PEFT guard is not performed (the environment's `fileExists` is arbitrary
and unread) and no exporter is resolved or invoked (`load_connector` is arbitrary and
unused; no `resolveExporter` or `invokeExporter` event occurs). -/
theorem C2_modelopt_route_short_circuit (env : Env) (path : FsPath)
    (output_path : Option FsPath) (overwrite : Bool)
    (lc : FsPath → String → Except PErr Exporter × List Event)
    (mek : Option Kwargs) (kwargs : Kwargs) (o : FsPath)
    (hq : env.exportHfCheckpoint path (output_path.getD (path ++ ["hf"])) (mek.getD [])
        = Except.ok (some o)) :
    export_ckpt env path "hf" output_path overwrite lc mek kwargs
      = (Except.ok o,
         [Event.modeloptCall path (output_path.getD (path ++ ["hf"])) (mek.getD [])]) := by
  simp [export_ckpt, hq]

/-- Claim C2, witness at a concrete environment. -/
theorem C2_modelopt_route_short_circuit_witness :
    export_ckpt envQuantPeft ["ckpt"] "hf" none true
        (fun _ _ => (Except.ok 3, [])) none []
      = (Except.ok ["ckpt", "hf"], [Event.modeloptCall ["ckpt"] ["ckpt", "hf"] []]) :=
  C2_modelopt_route_short_circuit envQuantPeft ["ckpt"] none true
    (fun _ _ => (Except.ok 3, [])) none [] ["ckpt", "hf"] rfl

/-- Claim C6: on the generic route (guard passes; for `target = "hf"` the ModelOpt route
declines), the effective output path is the caller-supplied `output_path` when given and
`path/target` otherwise, and the resolved exporter is invoked exactly once, with
`overwrite`, that effective output path and the extra options, its result being
`export_ckpt`'s result. -/
theorem C6_generic_route (env : Env) (path : FsPath) (target : String)
    (output_path : Option FsPath) (overwrite : Bool)
    (lc : FsPath → String → Except PErr Exporter × List Event)
    (mek : Option Kwargs) (kwargs : Kwargs) (ex : Exporter) (tr : List Event) (p : FsPath)
    (hguard : verify_peft_export env path target = Except.ok ())
    (hq : target = "hf" →
        env.exportHfCheckpoint path (output_path.getD (path ++ [target])) (mek.getD [])
          = Except.ok none)
    (hlc : lc path target = (Except.ok ex, tr))
    (htr : tr.filter isInvokeExporterEv = [])
    (hrun : env.runExporter ex overwrite (output_path.getD (path ++ [target])) kwargs
        = Except.ok p) :
    (export_ckpt env path target output_path overwrite lc mek kwargs).1 = Except.ok p
    ∧ (export_ckpt env path target output_path overwrite lc mek kwargs).2.filter
        isInvokeExporterEv
      = [Event.invokeExporter ex overwrite (output_path.getD (path ++ [target]))
          kwargs] := by
  by_cases ht : target = "hf"
  · subst ht
    simp [export_ckpt, hq rfl, exportGenericRoute, hguard, hlc, hrun,
      List.filter_append, htr, isInvokeExporterEv]
  · simp [export_ckpt, ht, exportGenericRoute, hguard, hlc, hrun,
      List.filter_append, htr, isInvokeExporterEv]

/-- Claim C6, witness at a concrete environment. -/
theorem C6_generic_route_witness :
    (export_ckpt envPlain ["c"] "tag" none false (fun _ _ => (Except.ok 3, [])) none
        []).1 = Except.ok ["res"]
    ∧ (export_ckpt envPlain ["c"] "tag" none false (fun _ _ => (Except.ok 3, [])) none
        []).2.filter isInvokeExporterEv
      = [Event.invokeExporter 3 false ((none : Option FsPath).getD (["c"] ++ ["tag"]))
          []] :=
  C6_generic_route envPlain ["c"] "tag" none false (fun _ _ => (Except.ok 3, [])) none []
    3 [] ["res"] rfl (fun h => absurd h (by decide)) rfl rfl rfl

/-- Claim C10: the PEFT guard raises if and only if `target = "hf"` and the marker file
exists; for every other target (here universally, e.g. `"hf-peft"`) the guard returns
unit even when the marker exists, and `export_ckpt` proceeds to exporter resolution and
invocation. -/
theorem C10_guard_only_for_hf (env : Env) (path : FsPath) (target : String)
    (output_path : Option FsPath) (overwrite : Bool)
    (lc : FsPath → String → Except PErr Exporter × List Event)
    (mek : Option Kwargs) (kwargs : Kwargs) (ex : Exporter) (tr : List Event) (p : FsPath)
    (hne : target ≠ "hf")
    (hmark : env.fileExists (path ++ ["weights", "adapter_metadata.json"]) = true)
    (hlc : lc path target = (Except.ok ex, tr))
    (hrun : env.runExporter ex overwrite (output_path.getD (path ++ [target])) kwargs
        = Except.ok p) :
    verify_peft_export env path target = Except.ok ()
    ∧ export_ckpt env path target output_path overwrite lc mek kwargs
        = (Except.ok p,
           tr ++ [Event.invokeExporter ex overwrite (output_path.getD (path ++ [target]))
             kwargs])
    ∧ ∀ (env2 : Env) (t2 : String),
        (∃ m, verify_peft_export env2 path t2 = Except.error (PErr.valueError m))
          ↔ (t2 = "hf"
             ∧ env2.fileExists (path ++ ["weights", "adapter_metadata.json"]) = true) := by
  have hguard : verify_peft_export env path target = Except.ok () := by
    simp [verify_peft_export, hne]
  refine ⟨hguard, ?_, ?_⟩
  · simp [export_ckpt, hne, exportGenericRoute, hguard, hlc, hrun]
  · intro env2 t2
    by_cases h : t2 = "hf" ∧ env2.fileExists (path ++ ["weights", "adapter_metadata.json"]) = true
    · rw [verify_peft_export, if_pos h]
      exact ⟨fun _ => h, fun _ => ⟨peftErrorMessage path, rfl⟩⟩
    · rw [verify_peft_export, if_neg h]
      simp [h]

/-- Claim C10, witness at a concrete environment: target `hf-peft` with the marker
present proceeds to the exporter. -/
theorem C10_guard_only_for_hf_witness :
    verify_peft_export envQuantPeft ["c"] "hf-peft" = Except.ok ()
    ∧ export_ckpt envQuantPeft ["c"] "hf-peft" none false
        (fun _ _ => (Except.ok 3, [])) none []
      = (Except.ok ["generic"],
         [] ++ [Event.invokeExporter 3 false
            ((none : Option FsPath).getD (["c"] ++ ["hf-peft"])) []])
    ∧ ∀ (env2 : Env) (t2 : String),
        (∃ m, verify_peft_export env2 ["c"] t2 = Except.error (PErr.valueError m))
          ↔ (t2 = "hf"
             ∧ env2.fileExists (["c"] ++ ["weights", "adapter_metadata.json"]) = true) :=
  C10_guard_only_for_hf envQuantPeft ["c"] "hf-peft" none false
    (fun _ _ => (Except.ok 3, [])) none [] 3 [] ["generic"] (by decide) rfl rfl rfl

/-- Every event traced by `load_context` is a `loadCall`, so any predicate false on
`loadCall` events filters its trace to the empty list. -/
theorem load_context_trace_filter {α : Type}
    (load : FsPath → Option String → Bool → Except PErr α) (path : FsPath)
    (subpath : Option String) (build : Bool) (q : Event → Bool)
    (hq : ∀ p2 sp2 b2, q (Event.loadCall p2 sp2 b2) = false) :
    (load_context load path subpath build).2.filter q = [] := by
  unfold load_context
  split <;> simp [hq]

/-- `countEv` distributes over list append. -/
theorem countEv_append (q : Event → Bool) (l1 l2 : List Event) :
    countEv q (l1 ++ l2) = countEv q l1 + countEv q l2 := by
  simp [countEv, List.filter_append]

/-- `countEv` ignores a head event on which the predicate is false. -/
theorem countEv_cons_false (q : Event → Bool) (x : Event) (l : List Event)
    (hx : q x = false) : countEv q (x :: l) = countEv q l := by
  simp [countEv, List.filter_cons, hx]

/-- `load_connector_from_trainer_ckpt` never traces an `invokeExporter` event and traces
at most one `resolveExporter` event. -/
theorem load_connector_from_trainer_ckpt_counts (env : Env) (path : FsPath)
    (target : String) :
    countEv isInvokeExporterEv (load_connector_from_trainer_ckpt env path target).2 = 0
    ∧ countEv isResolveExporterEv
        (load_connector_from_trainer_ckpt env path target).2 ≤ 1 := by
  have hInv : (load_context env.loadModel path (some "model") true).2.filter
      isInvokeExporterEv = [] :=
    load_context_trace_filter env.loadModel path (some "model") true isInvokeExporterEv
      (fun _ _ _ => rfl)
  have hRes : (load_context env.loadModel path (some "model") true).2.filter
      isResolveExporterEv = [] :=
    load_context_trace_filter env.loadModel path (some "model") true isResolveExporterEv
      (fun _ _ _ => rfl)
  rcases hLC : load_context env.loadModel path (some "model") true with ⟨r, tr⟩
  rw [hLC] at hInv hRes
  simp only at hInv hRes
  have h0 : countEv isInvokeExporterEv tr = 0 := by simp [countEv, hInv]
  have h1 : countEv isResolveExporterEv tr = 0 := by simp [countEv, hRes]
  unfold load_connector_from_trainer_ckpt
  rw [hLC]
  rcases r with e | model
  · exact ⟨h0, le_trans (le_of_eq h1) (Nat.zero_le 1)⟩
  · rcases model with _ | cap
    · exact ⟨h0, le_trans (le_of_eq h1) (Nat.zero_le 1)⟩
    · rcases hE : env.exporterOf cap target path with e | ex <;>
      · simp only [hE]
        constructor
        · rw [countEv_append, h0]
          rfl
        · rw [countEv_append, h1]
          exact Nat.le_refl 1

/-- `import_ckpt` traces at most one `resolveImporter` and at most one `invokeImporter`
event, whatever the collaborators do. -/
theorem import_ckpt_counts (env : Env) (model : ModelV) (source : String)
    (output_path : Option FsPath) (overwrite : Bool) (kwargs : Kwargs) :
    countEv isResolveImporterEv
      (import_ckpt env model source output_path overwrite kwargs).2 ≤ 1
    ∧ countEv isInvokeImporterEv
        (import_ckpt env model source output_path overwrite kwargs).2 ≤ 1 := by
  unfold import_ckpt
  rcases model with _ | cap
  · exact ⟨Nat.zero_le 1, Nat.zero_le 1⟩
  · rcases hI : env.importerOf cap source with e | imp
    · simp only [hI]
      exact ⟨Nat.le_refl 1, Nat.zero_le 1⟩
    · simp only [hI]
      rcases hR : env.runImporter imp overwrite output_path kwargs with e | p
      · simp only [hR]
        exact ⟨Nat.le_refl 1, Nat.le_refl 1⟩
      · simp only [hR]
        rcases hH : env.onImportCkpt imp (ModelV.capable cap) with e | v <;>
        · simp only [hH]
          exact ⟨Nat.le_refl 1, Nat.le_refl 1⟩

/-- `export_ckpt` with its default `load_connector` traces at most one `resolveExporter`
and at most one `invokeExporter` event, whatever the collaborators do. -/
theorem export_ckpt_counts (env : Env) (path : FsPath) (target : String)
    (output_path : Option FsPath) (overwrite : Bool) (mek : Option Kwargs)
    (kwargs : Kwargs) :
    countEv isResolveExporterEv
      (export_ckpt env path target output_path overwrite
        (load_connector_from_trainer_ckpt env) mek kwargs).2 ≤ 1
    ∧ countEv isInvokeExporterEv
        (export_ckpt env path target output_path overwrite
          (load_connector_from_trainer_ckpt env) mek kwargs).2 ≤ 1 := by
  have hGeneric : ∀ effOut : FsPath,
      countEv isResolveExporterEv
        (exportGenericRoute env path target effOut overwrite
          (load_connector_from_trainer_ckpt env) kwargs).2 ≤ 1
      ∧ countEv isInvokeExporterEv
          (exportGenericRoute env path target effOut overwrite
            (load_connector_from_trainer_ckpt env) kwargs).2 ≤ 1 := by
    intro effOut
    obtain ⟨g0, g1⟩ := load_connector_from_trainer_ckpt_counts env path target
    rcases hLC : load_connector_from_trainer_ckpt env path target with ⟨r, tr⟩
    rw [hLC] at g0 g1
    simp only at g0 g1
    unfold exportGenericRoute
    rcases hG : verify_peft_export env path target with e | u
    · simp only [hG]
      exact ⟨Nat.zero_le 1, Nat.zero_le 1⟩
    · simp only [hG]
      rw [hLC]
      rcases r with e | ex
      · exact ⟨g1, le_trans (le_of_eq g0) (Nat.zero_le 1)⟩
      · rcases hR : env.runExporter ex overwrite effOut kwargs with e2 | p <;>
        · simp only [hR]
          constructor
          · rw [countEv_append, Nat.add_comm]
            rw [show countEv isResolveExporterEv
                [Event.invokeExporter ex overwrite effOut kwargs] = 0 from rfl]
            rw [Nat.zero_add]
            exact g1
          · rw [countEv_append, g0]
            exact Nat.le_refl 1
  unfold export_ckpt
  by_cases ht : target = "hf"
  · subst ht
    simp only [if_pos rfl]
    rcases hQ : env.exportHfCheckpoint path (output_path.getD (path ++ ["hf"]))
        ((mek.getD [] : Kwargs)) with e | o
    · simp only [hQ]
      exact ⟨Nat.zero_le 1, Nat.zero_le 1⟩
    · rcases o with _ | out
      · simp only [hQ]
        exact ⟨(hGeneric (output_path.getD (path ++ ["hf"]))).1,
               (hGeneric (output_path.getD (path ++ ["hf"]))).2⟩
      · simp only [hQ]
        exact ⟨Nat.zero_le 1, Nat.zero_le 1⟩
  · simp only [if_neg ht]
    exact hGeneric (output_path.getD (path ++ [target]))

/-- Claim C9: in every execution of `import_ckpt` and every execution of `export_ckpt`
(with its default `load_connector`), at most one converter instance is created
(`resolveImporter` resp. `resolveExporter` occurs at most once in the trace) and it is
invoked at most once (`invokeImporter` resp. `invokeExporter` occurs at most once),
whatever the collaborators return or raise: no caching and no retry of a converter
invocation. -/
theorem C9_single_converter_per_call (env : Env) (model : ModelV) (source : String)
    (op1 : Option FsPath) (ow1 : Bool) (kw1 : Kwargs)
    (path : FsPath) (target : String) (op2 : Option FsPath) (ow2 : Bool)
    (mek : Option Kwargs) (kw2 : Kwargs) :
    countEv isResolveImporterEv (import_ckpt env model source op1 ow1 kw1).2 ≤ 1
    ∧ countEv isInvokeImporterEv (import_ckpt env model source op1 ow1 kw1).2 ≤ 1
    ∧ countEv isResolveExporterEv
        (export_ckpt env path target op2 ow2 (load_connector_from_trainer_ckpt env) mek
          kw2).2 ≤ 1
    ∧ countEv isInvokeExporterEv
        (export_ckpt env path target op2 ow2 (load_connector_from_trainer_ckpt env) mek
          kw2).2 ≤ 1 :=
  ⟨(import_ckpt_counts env model source op1 ow1 kw1).1,
   (import_ckpt_counts env model source op1 ow1 kw1).2,
   (export_ckpt_counts env path target op2 ow2 mek kw2).1,
   (export_ckpt_counts env path target op2 ow2 mek kw2).2⟩

end NemoApi
